import Mathlib

/-!
Verification of the stream-compatibility layer of the `click` repository
(`src/click/_compat.py` and `src/click/_wrappers.py`).

The Python functions are shallowly embedded as executable Lean definitions.
Streams are modelled as explicit records of the attributes the code reads
(`encoding`, `errors`, `buffer`, `isatty`), object identity is modelled by
allocation tokens (`Nat`), and the two process-wide caches are modelled as
explicit state threaded through the functions.
-/

set_option maxHeartbeats 1000000

namespace ClickCompat

/-! ### ANSI escape handling (`_ansi_re`, `strip_ansi`, `term_len`)

The regular expression in the source is `\033\[[;?0-9]*[a-zA-Z]` and
`strip_ansi` removes every non-overlapping, leftmost match from the string.
We embed the matcher directly: a match at a position is the escape
character, `[`, a maximal run of characters from the class `[;?0-9]`
(the class is disjoint from `[a-zA-Z]`, so the greedy run never backtracks),
and one ASCII letter. -/

/-- The character class `[;?0-9]` of the CSI parameter bytes. -/
def isCSIParam (c : Char) : Bool :=
  c = ';' || c = '?' || c.isDigit

/-- Drop the maximal leading run of `[;?0-9]` characters (the greedy `*`). -/
def dropParams : List Char → List Char
  | [] => []
  | c :: cs => if isCSIParam c then dropParams cs else c :: cs

theorem dropParams_length (l : List Char) : (dropParams l).length ≤ l.length := by
  induction l with
  | nil => simp [dropParams]
  | cons c cs ih =>
    simp only [dropParams]
    split
    · exact Nat.le_trans ih (Nat.le_succ _)
    · exact Nat.le_refl _

/-- After the greedy parameter run, the match succeeds exactly when an ASCII
letter follows; return the suffix after that letter. -/
def csiTail (l : List Char) : Option (List Char) :=
  match dropParams l with
  | d :: rest2 => if d.isAlpha then some rest2 else none
  | [] => none

/-- If `_ansi_re` matches at the head of `l`, return the suffix after the
match; otherwise `none`. -/
def csiSuffix (l : List Char) : Option (List Char) :=
  match l with
  | c1 :: c2 :: rest =>
    if c1 = '\x1b' ∧ c2 = '[' then csiTail rest else none
  | _ => none

theorem csiTail_length {l r : List Char} (h : csiTail l = some r) :
    r.length < l.length := by
  unfold csiTail at h
  cases hdp : dropParams l with
  | nil => rw [hdp] at h; simp at h
  | cons d rest2 =>
    rw [hdp] at h
    by_cases hd : d.isAlpha
    · simp only [hd, if_pos, Option.some.injEq] at h
      subst h
      have hle : (dropParams l).length ≤ l.length := dropParams_length l
      rw [hdp] at hle
      simp only [List.length_cons] at hle
      omega
    · simp [hd] at h

theorem csiSuffix_length {l r : List Char} (h : csiSuffix l = some r) :
    r.length < l.length := by
  match l with
  | [] => simp [csiSuffix] at h
  | [c1] => simp [csiSuffix] at h
  | c1 :: c2 :: rest =>
    simp only [csiSuffix] at h
    split at h
    · have := csiTail_length h
      simp only [List.length_cons]
      omega
    · simp at h

/-- The substitution loop of `_ansi_re.sub('', value)`: scan left to right,
drop each leftmost match, keep every other character. -/
def stripAnsiList : List Char → List Char
  | [] => []
  | c :: cs =>
    match h : csiSuffix (c :: cs) with
    | some rest => stripAnsiList rest
    | none => c :: stripAnsiList cs
termination_by l => l.length
decreasing_by
  · exact csiSuffix_length h
  · simp

/-- Embeds `strip_ansi(value)`: strip ANSI escape sequences from a string. -/
def strip_ansi (value : String) : String :=
  ⟨stripAnsiList value.data⟩

/-- Embeds `term_len(x)`: the length of a string, taking into account ANSI escape
sequences. The source computes `len(strip_ansi(x))`. -/
def term_len (x : String) : Nat :=
  (strip_ansi x).length

/-! ### TTY detection and the strip decision (`isatty`, `should_strip_ansi`) -/

/-- The attributes of a stream read by `isatty`: the result of calling
`stream.isatty()`, with `none` modelling a call that raises. -/
structure TtyStream where
  isattyResult : Option Bool
deriving DecidableEq, Repr

/-- Embeds `isatty(stream)`: `None` defaults to `sys.stdout`; any exception from the
underlying check is treated as not-a-TTY. -/
def isatty (stream : Option TtyStream) (sysStdout : TtyStream) : Bool :=
  let s := stream.getD sysStdout
  s.isattyResult.getD false

/-- Embeds `should_strip_ansi(stream, color)`. -/
def should_strip_ansi (stream : Option TtyStream) (color : Option Bool)
    (sysStdout : TtyStream) : Bool :=
  match color with
  | none => !(isatty stream sysStdout)
  | some c => !c

/-! ### Encoding resolution (`is_ascii_encoding`, `get_best_encoding`) -/

/-- Python's truthiness-based `x or default` on an optional string attribute:
`None` and the empty string fall through to the default. -/
def pyOrStr (a : Option String) (b : String) : String :=
  match a with
  | some s => if s = "" then b else s
  | none => b

/-- ASCII lowercasing of a string, character by character. -/
def pyLower (s : String) : String :=
  ⟨s.data.map Char.toLower⟩

/-- Modelled from the Python standard library: `codecs.lookup(name).name` for
the codec names these utilities may encounter. The lookup lowercases the name
and resolves registered aliases to the codec's canonical name; an unknown name
raises `LookupError`, modelled as `none`. The alias table below is the
standard library's for the ASCII, UTF-8, Latin-1, UTF-16 and cp1252 codecs. -/
def codecs_lookup_name (enc : String) : Option String :=
  let n := pyLower enc
  if n = "ascii" || n = "us-ascii" || n = "us_ascii" || n = "646" ||
      n = "ansi_x3.4-1968" || n = "ansi_x3.4-1986" || n = "cp367" ||
      n = "csascii" || n = "ibm367" || n = "iso646-us" ||
      n = "iso_646.irv_1991" || n = "iso-ir-6" then
    some "ascii"
  else if n = "utf-8" || n = "utf8" || n = "utf_8" || n = "u8" || n = "utf" ||
      n = "cp65001" then
    some "utf-8"
  else if n = "latin-1" || n = "latin1" || n = "latin" || n = "l1" ||
      n = "iso-8859-1" || n = "iso8859-1" || n = "8859" || n = "cp819" then
    some "iso8859-1"
  else if n = "utf-16" || n = "utf16" || n = "u16" then
    some "utf-16"
  else if n = "cp1252" || n = "windows-1252" then
    some "cp1252"
  else
    none

/-- Embeds `is_ascii_encoding(encoding)`: checks whether the looked-up codec's
canonical name is `ascii`; a `LookupError` yields `False`. -/
def is_ascii_encoding (encoding : String) : Bool :=
  match codecs_lookup_name encoding with
  | some n => n = "ascii"
  | none => false

/-- Embeds `get_best_encoding(stream)`: the stream's declared `encoding` attribute or
the runtime default, overridden with `utf-8` when that resolves to ASCII.
The stream's attribute and `sys.getdefaultencoding()` are explicit
arguments. -/
def get_best_encoding (streamEncoding : Option String) (defaultEncoding : String) :
    String :=
  let rv := pyOrStr streamEncoding defaultEncoding
  if is_ascii_encoding rv then "utf-8" else rv

/-! ### Binary reader/writer discovery and `open_stream` -/

/-- A handle, used to model object identity of stream objects: distinct
standard-stream objects carry distinct ids, and a call to the builtin `open`
is modelled by the arguments it received. -/
inductive Handle where
  | std (id : Nat)
  | file (path : String) (mode : String) (encoding : Option String)
      (errors : Option String)
deriving DecidableEq, Repr

/-- The attributes of a `sys` stream read by `_find_binary_reader` and
`_find_binary_writer`: whether it is an instance of
`io.RawIOBase`/`io.BufferedIOBase`, its optional `buffer` attribute, and the
handle of the object itself. -/
structure PyStream where
  isRawOrBuffered : Bool
  buffer : Option Handle
  selfHandle : Handle
deriving DecidableEq, Repr

/-- Embeds `_find_binary_reader(stream)`: the stream itself when already binary, else
its `buffer` attribute when present, else the stream unchanged. -/
def _find_binary_reader (s : PyStream) : Handle :=
  if s.isRawOrBuffered then s.selfHandle
  else
    match s.buffer with
    | some b => b
    | none => s.selfHandle

/-- Embeds `_find_binary_writer(stream)`: identical logic to the reader. -/
def _find_binary_writer (s : PyStream) : Handle :=
  if s.isRawOrBuffered then s.selfHandle
  else
    match s.buffer with
    | some b => b
    | none => s.selfHandle

/-- Embeds `_wrap_io_open(file, mode, encoding, errors)`: binary mode calls `open`
without `encoding`/`errors`; text mode passes them through. -/
def _wrap_io_open (file : String) (mode : String) (encoding : Option String)
    (errors : Option String) : Handle :=
  if mode.contains 'b' then Handle.file file mode none none
  else Handle.file file mode encoding errors

/-- Embeds `_get_argv_encoding()`: `sys.stdin.encoding` or
`sys.getfilesystemencoding()` or `utf-8`, with Python truthiness. The two
`sys` values are explicit arguments. -/
def _get_argv_encoding (stdinEncoding : Option String)
    (fsEncoding : Option String) : String :=
  pyOrStr stdinEncoding (pyOrStr fsEncoding "utf-8")

/-- The `filename` argument of `open_stream`: an `int` file descriptor or a
path. -/
inductive FileArg where
  | fd (n : Int)
  | path (p : String)
deriving DecidableEq, Repr

/-- Embeds `open_stream(filename, mode, encoding, errors, atomic)`: an integer
filename short-circuits to the standard binary writer (mode contains `w`) or
reader, with ownership `False`; a path is opened with `_wrap_io_open`, in text
mode resolving a missing encoding via `_get_argv_encoding`, with ownership
`True`. `sys.stdin`/`sys.stdout` and the values read by `_get_argv_encoding`
are explicit arguments. -/
def open_stream (sysStdin sysStdout : PyStream)
    (stdinEncoding fsEncoding : Option String)
    (filename : FileArg) (mode : String) (encoding : Option String)
    (errors : Option String) (atomic : Bool) : Handle × Bool :=
  match filename with
  | FileArg.fd _ =>
    if mode.contains 'w' then (_find_binary_writer sysStdout, false)
    else (_find_binary_reader sysStdin, false)
  | FileArg.path p =>
    if mode.contains 'b' then (_wrap_io_open p mode none none, true)
    else
      let enc := pyOrStr encoding (_get_argv_encoding stdinEncoding fsEncoding)
      (_wrap_io_open p mode (some enc) errors, true)

/-! ### Text stream accessors (`_stream_is_misconfigured`,
`_is_compat_stream_attr`, `_is_compatible_text_stream`, `get_text_stdin`,
`get_text_stdout`, `get_text_stderr`)

A text stream is modelled by the attributes these functions read and by the
configuration of the stream they return. `isWrapper` records whether the
returned object is a freshly constructed `_NonClosingTextIOWrapper` (as
opposed to the `sys` stream object itself). -/

structure TextStream where
  encoding : Option String
  errors : Option String
  isWrapper : Bool
deriving DecidableEq, Repr

/-- Embeds `_stream_is_misconfigured(stream)`: the stream's encoding (or `''`) is
ASCII. -/
def _stream_is_misconfigured (s : TextStream) : Bool :=
  is_ascii_encoding (s.encoding.getD "")

/-- Embeds `_is_compat_stream_attr(stream, attr, value)` for a string attribute. -/
def _is_compat_stream_attr (streamValue : Option String)
    (value : Option String) : Bool :=
  streamValue = value || (value = none && streamValue ≠ none)

/-- Embeds `_is_compatible_text_stream(stream, encoding, errors)`. -/
def _is_compatible_text_stream (s : TextStream) (encoding errors : Option String) :
    Bool :=
  _is_compat_stream_attr s.encoding encoding
    && _is_compat_stream_attr s.errors errors

/-- Embeds `_NonClosingTextIOWrapper(buffer, encoding, errors)` as returned by the
text accessors: a wrapper stream configured with exactly the given encoding
and errors policy. -/
def nonClosingWrapperOf (encoding errors : String) : TextStream :=
  { encoding := some encoding, errors := some errors, isWrapper := true }

/-- Embeds `get_text_stdin(encoding, errors)`. `sys.stdin` and
`sys.getdefaultencoding()` are explicit arguments. -/
def get_text_stdin (sysStdin : TextStream) (defaultEncoding : String)
    (encoding errors : Option String) : TextStream :=
  let enc := match encoding with
    | none => get_best_encoding sysStdin.encoding defaultEncoding
    | some e => e
  let err := errors.getD "replace"
  if _stream_is_misconfigured sysStdin then nonClosingWrapperOf enc err
  else sysStdin

/-- Embeds `get_text_stdout(encoding, errors)`. -/
def get_text_stdout (sysStdout : TextStream) (defaultEncoding : String)
    (encoding errors : Option String) : TextStream :=
  let enc := match encoding with
    | none => get_best_encoding sysStdout.encoding defaultEncoding
    | some e => e
  let err := errors.getD "replace"
  if _stream_is_misconfigured sysStdout then nonClosingWrapperOf enc err
  else sysStdout

/-- Embeds `get_text_stderr(encoding, errors)`. -/
def get_text_stderr (sysStderr : TextStream) (defaultEncoding : String)
    (encoding errors : Option String) : TextStream :=
  let enc := match encoding with
    | none => get_best_encoding sysStderr.encoding defaultEncoding
    | some e => e
  let err := errors.getD "replace"
  if _stream_is_misconfigured sysStderr then nonClosingWrapperOf enc err
  else sysStderr

/-! ### The PID-keyed stream cache (`_make_cached_stream_func`)

Stream objects are modelled as allocation tokens: each run of
`wrapper_factory(factory())` allocates a fresh token (`nextId`) and counts one
wrapper construction (`wrapperCalls`). The `cache` dictionary maps a process
id to the token cached for it. -/

structure StreamCache where
  cache : List (Nat × Nat)
  nextId : Nat
  wrapperCalls : Nat
deriving DecidableEq, Repr

/-- The `get_stream(*args)` closure produced by `_make_cached_stream_func`:
look up the current pid; on a miss, construct the wrapped stream and cache it
under the pid. -/
def get_stream (pid : Nat) (st : StreamCache) : Nat × StreamCache :=
  match st.cache.lookup pid with
  | some s => (s, st)
  | none =>
    (st.nextId,
      { cache := (pid, st.nextId) :: st.cache
        nextId := st.nextId + 1
        wrapperCalls := st.wrapperCalls + 1 })

/-- Well-formedness of the allocation model: every cached token was allocated
before `nextId`. -/
def cacheWF (st : StreamCache) : Bool :=
  st.cache.all (fun ps => ps.2 < st.nextId)

/-! ### The platform ANSI wrapper (`auto_wrap_for_ansi`)

Stream objects are again allocation tokens; `wrappers` models the
`_ansi_stream_wrappers` weak-key dictionary from original stream to its
wrapped stream, and a fresh token models a new `colorama.AnsiToWin32(...)
.stream` object. `coloramaAvailable` models whether `import colorama`
succeeds; the cache lookup happens before the import is attempted, and an
`ImportError` returns the original stream. -/

structure AnsiWrapState where
  wrappers : List (Nat × Nat)
  nextId : Nat
deriving DecidableEq, Repr

/-- Embeds `auto_wrap_for_ansi(stream, color)` (Windows branch). The `color`
argument only influences the wrapped object's strip flag, which the cache and
identity claims do not read, so it is omitted from the allocation model. -/
def auto_wrap_for_ansi (coloramaAvailable : Bool) (stream : Nat)
    (st : AnsiWrapState) : Nat × AnsiWrapState :=
  match st.wrappers.lookup stream with
  | some cached => (cached, st)
  | none =>
    if coloramaAvailable then
      (st.nextId,
        { wrappers := (stream, st.nextId) :: st.wrappers
          nextId := st.nextId + 1 })
    else (stream, st)

/-! ### Teardown of `_NonClosingTextIOWrapper` (`__del__`) -/

/-- The teardown-relevant state of a `_NonClosingTextIOWrapper`: whether the
wrapper has already been detached, and whether the underlying binary stream
has been closed. -/
structure WrapperTeardown where
  detached : Bool
  underlyingClosed : Bool
deriving DecidableEq, Repr

/-- Modelled from the Python standard library: `io.TextIOWrapper.detach`
(inherited by `_NonClosingTextIOWrapper`) releases the underlying binary
buffer without closing it, and raises `ValueError` when the wrapper is
already detached. -/
def wrapperDetach (w : WrapperTeardown) : Except String WrapperTeardown :=
  if w.detached then Except.error "ValueError: buffer is already detached"
  else Except.ok { w with detached := true }

/-- Embeds `_NonClosingTextIOWrapper.__del__`: `try: self.detach() except Exception:
pass`. The `Except.ok` result means teardown completed without raising. -/
def nonClosingDel (w : WrapperTeardown) : Except String WrapperTeardown :=
  match wrapperDetach w with
  | Except.ok w2 => Except.ok w2
  | Except.error _ => Except.ok w

end ClickCompat

namespace ClickCompat

/-- Claim C1: for every string `x`, the visible-length operation `term_len x`
equals the length of the string obtained by stripping all ANSI CSI escape
sequences from `x` with `strip_ansi`. -/
theorem term_len_eq_length_strip_ansi (x : String) :
    term_len x = (strip_ansi x).length := rfl

/-- Claim C6: with no explicit color override, `should_strip_ansi` on a given
stream returns `true` exactly when the stream is not an interactive terminal
(a raising `isatty` counts as not a terminal), and with an explicit boolean
override it returns the negation of that override regardless of the stream. -/
theorem should_strip_ansi_spec (s sysOut : TtyStream) (c : Bool)
    (anyStream : Option TtyStream) :
    (should_strip_ansi (some s) none sysOut = true ↔ isatty (some s) sysOut = false)
    ∧ should_strip_ansi anyStream (some c) sysOut = !c := by
  constructor
  · simp [should_strip_ansi]
  · simp [should_strip_ansi]

/-- Claim C2: when the declared stream encoding (or, absent one, the runtime
default) names the ASCII codec, `get_best_encoding` returns `utf-8`; it never
returns an ASCII encoding; otherwise it returns the declared encoding or,
absent one, the runtime default. -/
theorem get_best_encoding_spec (streamEncoding : Option String)
    (defaultEncoding : String) :
    is_ascii_encoding (get_best_encoding streamEncoding defaultEncoding) = false
    ∧ (is_ascii_encoding (pyOrStr streamEncoding defaultEncoding) = true →
        get_best_encoding streamEncoding defaultEncoding = "utf-8")
    ∧ (is_ascii_encoding (pyOrStr streamEncoding defaultEncoding) = false →
        get_best_encoding streamEncoding defaultEncoding
          = pyOrStr streamEncoding defaultEncoding) := by
  refine ⟨?_, ?_, ?_⟩
  · by_cases h : is_ascii_encoding (pyOrStr streamEncoding defaultEncoding) = true
    · simp [get_best_encoding, h]
      decide
    · simp only [Bool.not_eq_true] at h
      simp [get_best_encoding, h]
  · intro h
    simp [get_best_encoding, h]
  · intro h
    simp [get_best_encoding, h]

/-- Witness for C2: a stream declaring `ascii` resolves to `utf-8`; a stream
declaring `latin-1` keeps its declared encoding. -/
theorem get_best_encoding_spec_witness :
    get_best_encoding (some "ascii") "utf-8" = "utf-8"
    ∧ get_best_encoding (some "latin-1") "utf-8"
        = pyOrStr (some "latin-1") "utf-8" :=
  ⟨(get_best_encoding_spec (some "ascii") "utf-8").2.1 (by decide),
   (get_best_encoding_spec (some "latin-1") "utf-8").2.2 (by decide)⟩

/-- Claim C4: `open_stream` on an integer descriptor returns the standard
binary writer when the mode contains `w` and the standard binary reader
otherwise, with should-close `false`; on a path it returns the handle
obtained by opening that path via `_wrap_io_open` (in text mode with the
resolved encoding and the errors policy, in binary mode with neither), with
should-close `true`. -/
theorem open_stream_std_shortcut_and_path (sysIn sysOut : PyStream)
    (se fe : Option String) (n : Int) (mode : String) (enc err : Option String)
    (a : Bool) (p : String) :
    open_stream sysIn sysOut se fe (FileArg.fd n) mode enc err a
      = (if mode.contains 'w' then _find_binary_writer sysOut
         else _find_binary_reader sysIn, false)
    ∧ open_stream sysIn sysOut se fe (FileArg.path p) mode enc err a
      = (if mode.contains 'b' then _wrap_io_open p mode none none
         else _wrap_io_open p mode
           (some (pyOrStr enc (_get_argv_encoding se fe))) err, true) := by
  constructor
  · by_cases h : mode.contains 'w' <;> simp [open_stream, h]
  · by_cases hb : mode.contains 'b' <;> simp [open_stream, hb]

/-- Claim C9: for every integer filename value, `open_stream` takes the
standard-stream shortcut: the result depends only on whether the mode contains
`w`, not on the integer's value, and should-close is `false`. -/
theorem open_stream_int_uninspected (sysIn sysOut : PyStream)
    (se fe : Option String) (n m : Int) (mode : String) (enc err : Option String)
    (a : Bool) :
    open_stream sysIn sysOut se fe (FileArg.fd n) mode enc err a
      = (if mode.contains 'w' then _find_binary_writer sysOut
         else _find_binary_reader sysIn, false)
    ∧ open_stream sysIn sysOut se fe (FileArg.fd n) mode enc err a
      = open_stream sysIn sysOut se fe (FileArg.fd m) mode enc err a := by
  constructor
  · by_cases h : mode.contains 'w' <;> simp [open_stream, h]
  · rfl

/-- Claim C10: the result of `open_stream` is independent of its `atomic`
flag: the flag is accepted but never read. -/
theorem open_stream_atomic_independent (sysIn sysOut : PyStream)
    (se fe : Option String) (fn : FileArg) (mode : String)
    (enc err : Option String) :
    open_stream sysIn sysOut se fe fn mode enc err true
      = open_stream sysIn sysOut se fe fn mode enc err false := rfl

theorem lookup_mem {l : List (Nat × Nat)} {k v : Nat}
    (h : l.lookup k = some v) : (k, v) ∈ l := by
  induction l with
  | nil => simp [List.lookup] at h
  | cons p t ih =>
    obtain ⟨a, b⟩ := p
    simp only [List.lookup] at h
    by_cases hk : (k == a) = true
    · rw [hk] at h
      simp only [Option.some.injEq] at h
      subst h
      have : k = a := eq_of_beq hk
      subst this
      exact List.mem_cons_self _ _
    · rw [Bool.not_eq_true] at hk
      rw [hk] at h
      exact List.mem_cons_of_mem _ (ih h)

/-- Claim C3: the accessor produced by `_make_cached_stream_func` returns,
on a second call under the same process id, the identical wrapped instance
constructed on the first call, running the wrapper at most once per process
id; a call under a process id with no cache entry constructs a new instance
(distinct from the first one) via the factory and wrapper. -/
theorem cached_stream_per_pid (pid pid2 : Nat) (st : StreamCache)
    (hwf : cacheWF st = true) :
    (get_stream pid (get_stream pid st).2).1 = (get_stream pid st).1
    ∧ (get_stream pid (get_stream pid st).2).2 = (get_stream pid st).2
    ∧ (st.cache.lookup pid = none →
        (get_stream pid st).2.wrapperCalls = st.wrapperCalls + 1)
    ∧ ((get_stream pid st).2.cache.lookup pid2 = none →
        (get_stream pid2 (get_stream pid st).2).2.wrapperCalls
          = (get_stream pid st).2.wrapperCalls + 1
        ∧ (get_stream pid2 (get_stream pid st).2).1
          ≠ (get_stream pid st).1) := by
  cases h1 : st.cache.lookup pid with
  | some s =>
    have hmem : (pid, s) ∈ st.cache := lookup_mem h1
    have hlt : s < st.nextId := by
      have := (List.all_eq_true.mp hwf) _ hmem
      simpa using this
    refine ⟨?_, ?_, ?_, ?_⟩
    · simp [get_stream, h1]
    · simp [get_stream, h1]
    · intro habs
      simp at habs
    · intro h2
      simp only [get_stream, h1] at h2 ⊢
      simp only [h2]
      exact ⟨trivial, by omega⟩
  | none =>
    refine ⟨?_, ?_, ?_, ?_⟩
    · simp [get_stream, h1, List.lookup]
    · simp [get_stream, h1, List.lookup]
    · intro _
      simp [get_stream, h1]
    · intro h2
      simp only [get_stream, h1] at h2 ⊢
      simp only [h2]
      exact ⟨trivial, by omega⟩

/-- Witness for C3: starting from an empty cache, two calls under pid `1`
return the same token, and a call under pid `2` returns a different one. -/
theorem cached_stream_per_pid_witness :
    (get_stream 1 (get_stream 1 ⟨[], 0, 0⟩).2).1 = (get_stream 1 ⟨[], 0, 0⟩).1
    ∧ (get_stream 2 (get_stream 1 ⟨[], 0, 0⟩).2).1
      ≠ (get_stream 1 ⟨[], 0, 0⟩).1 :=
  ⟨(cached_stream_per_pid 1 2 ⟨[], 0, 0⟩ (by decide)).1,
   ((cached_stream_per_pid 1 2 ⟨[], 0, 0⟩ (by decide)).2.2.2 (by decide)).2⟩

/-- Claim C7: `__del__` of the non-closing wrapper detaches from the
underlying byte stream without closing it and never raises; tearing down an
already-detached wrapper (or tearing down twice) is swallowed. -/
theorem nonClosingDel_spec (w : WrapperTeardown) :
    ∃ w2, nonClosingDel w = Except.ok w2
      ∧ w2.underlyingClosed = w.underlyingClosed
      ∧ w2.detached = true
      ∧ nonClosingDel w2 = Except.ok w2 := by
  by_cases hd : w.detached = true
  · exact ⟨w, by simp [nonClosingDel, wrapperDetach, hd], rfl, hd,
      by simp [nonClosingDel, wrapperDetach, hd]⟩
  · rw [Bool.not_eq_true] at hd
    exact ⟨{ w with detached := true },
      by simp [nonClosingDel, wrapperDetach, hd], rfl, rfl,
      by simp [nonClosingDel, wrapperDetach]⟩

/-- Claim C8: with the translation capability available, wrapping the same
stream twice returns the same wrapped object both times (the first result is
cached against the original stream); with the capability unavailable (and the
stream not previously wrapped) the original stream is returned unchanged. -/
theorem auto_wrap_for_ansi_idempotent (stream : Nat) (st : AnsiWrapState) :
    (auto_wrap_for_ansi true stream (auto_wrap_for_ansi true stream st).2).1
      = (auto_wrap_for_ansi true stream st).1
    ∧ (auto_wrap_for_ansi true stream (auto_wrap_for_ansi true stream st).2).2
      = (auto_wrap_for_ansi true stream st).2
    ∧ (st.wrappers.lookup stream = none →
        auto_wrap_for_ansi false stream st = (stream, st)) := by
  cases h : st.wrappers.lookup stream with
  | some cached =>
    refine ⟨by simp [auto_wrap_for_ansi, h], by simp [auto_wrap_for_ansi, h], ?_⟩
    intro habs
    simp at habs
  | none =>
    exact ⟨by simp [auto_wrap_for_ansi, h, List.lookup],
      by simp [auto_wrap_for_ansi, h, List.lookup],
      fun _ => by simp [auto_wrap_for_ansi, h]⟩

/-- Witness for C8: with an empty cache and the capability unavailable, the
original stream token comes back unchanged. -/
theorem auto_wrap_for_ansi_witness :
    auto_wrap_for_ansi false 0 ⟨[], 0⟩ = (0, ⟨[], 0⟩) :=
  (auto_wrap_for_ansi_idempotent 0 ⟨[], 0⟩).2.2 (by rfl)

/-- Counterexample to claim C5 as stated: on a stdout that is not
misconfigured (declared encoding `utf-8`), the caller-supplied encoding
`latin-1` and errors `ignore` do not take effect — the returned stream is the
original one with encoding `utf-8` and errors `strict`. -/
theorem get_text_stdout_ignores_overrides :
    (get_text_stdout ⟨some "utf-8", some "strict", false⟩ "utf-8"
        (some "latin-1") (some "ignore")).encoding ≠ some "latin-1"
    ∧ (get_text_stdout ⟨some "utf-8", some "strict", false⟩ "utf-8"
        (some "latin-1") (some "ignore")).errors ≠ some "ignore" := by
  decide

/-- Claim C5 as amended: when the underlying standard stream is misconfigured
(ASCII encoding), the text accessors return a wrapper configured with the
caller-supplied encoding and errors policy (errors defaulting to `replace`);
when the stream is not misconfigured, the standard stream itself is returned
unchanged and caller-supplied values are ignored. -/
theorem get_text_streams_override_spec (s : TextStream) (d e r : String)
    (enc err : Option String) :
    (_stream_is_misconfigured s = true →
        get_text_stdout s d (some e) (some r)
          = { encoding := some e, errors := some r, isWrapper := true }
        ∧ get_text_stdout s d (some e) none
          = { encoding := some e, errors := some "replace", isWrapper := true }
        ∧ get_text_stdin s d (some e) (some r)
          = { encoding := some e, errors := some r, isWrapper := true }
        ∧ get_text_stderr s d (some e) (some r)
          = { encoding := some e, errors := some r, isWrapper := true })
    ∧ (_stream_is_misconfigured s = false →
        get_text_stdin s d enc err = s
        ∧ get_text_stdout s d enc err = s
        ∧ get_text_stderr s d enc err = s) := by
  constructor
  · intro h
    refine ⟨?_, ?_, ?_, ?_⟩ <;>
      simp [get_text_stdout, get_text_stdin, get_text_stderr,
        nonClosingWrapperOf, h]
  · intro h
    refine ⟨?_, ?_, ?_⟩ <;>
      simp [get_text_stdin, get_text_stdout, get_text_stderr, h]

/-- Witness for the amended C5: a misconfigured (`ascii`) stdout honours the
caller's `utf-16`/`ignore`; a well-configured (`utf-8`) stdout is returned
unchanged. -/
theorem get_text_streams_override_witness :
    get_text_stdout ⟨some "ascii", some "strict", false⟩ "utf-8"
        (some "utf-16") (some "ignore")
      = { encoding := some "utf-16", errors := some "ignore", isWrapper := true }
    ∧ get_text_stdout ⟨some "utf-8", some "strict", false⟩ "utf-8"
        (some "utf-16") (some "ignore")
      = ⟨some "utf-8", some "strict", false⟩ :=
  ⟨((get_text_streams_override_spec ⟨some "ascii", some "strict", false⟩
      "utf-8" "utf-16" "ignore" none none).1 (by decide)).1,
   ((get_text_streams_override_spec ⟨some "utf-8", some "strict", false⟩
      "utf-8" "utf-16" "ignore" (some "utf-16") (some "ignore")).2
      (by decide)).2.1⟩

end ClickCompat
